import Mathlib

/-!
Shallow embedding of the dual-mode data-access layer of the manageProducts
repository: the browser local-storage offline store (src/services/api-offline.ts),
the networked Data Access Facade (the api object wrapping fetch calls), and the
serverless JSON-file backend (the exports.handler function).

Modelling conventions:
* timestamps (ISO strings produced by Date.toISOString and compared through
  Date.getTime) are modelled as natural numbers, order-isomorphic to the strings
  the code stores;
* JavaScript number prices are modelled as rationals (the code never computes
  on them, it only stores and returns them);
* localStorage / file contents are modelled by the Stored type: a key can be
  absent, hold unparseable text (JSON.parse throws), or hold a parsed value;
* localStorage.setItem can throw (quota); setStoredData swallows that error, so
  it is modelled by a writeOk flag choosing between the new and the old content;
* fetch outcomes are modelled by NetResult: either a parsed response object or
  a transport-level failure (fetch or response.json threw).
-/

/-- Category record (src/types/index.ts). -/
structure Category where
  id : Int
  name : String
  description : Option String
  created_at : Nat
deriving DecidableEq

/-- Product record (src/types/index.ts); category_name is the derived join field. -/
structure Product where
  id : Int
  name : String
  description : Option String
  category_id : Int
  category_name : Option String
  purchase_price : Rat
  selling_price : Rat
  remaining_stock : Int
  min_stock_level : Int
  image_url : Option String
  created_at : Nat
  updated_at : Nat
deriving DecidableEq

/-- Create payload: Omit of Product without id, created_at, updated_at, category_name. -/
structure CreateData where
  name : String
  description : Option String
  category_id : Int
  purchase_price : Rat
  selling_price : Rat
  remaining_stock : Int
  min_stock_level : Int
  image_url : Option String
deriving DecidableEq

/-- Update payload: Omit of Product without created_at, updated_at, category_name. -/
structure UpdateData where
  id : Int
  name : String
  description : Option String
  category_id : Int
  purchase_price : Rat
  selling_price : Rat
  remaining_stock : Int
  min_stock_level : Int
  image_url : Option String
deriving DecidableEq

/-- Content of one localStorage key / one JSON file: missing, unparseable, or a value. -/
inductive Stored (α : Type) where
  | absent
  | corrupt
  | val (a : α)
deriving DecidableEq

/-- getStoredData (api-offline.ts): localStorage.getItem returning null yields the
default, and a JSON.parse failure is caught and also yields the default. -/
def getStoredData {α : Type} (s : Stored α) (defaultValue : α) : α :=
  match s with
  | .absent => defaultValue
  | .corrupt => defaultValue
  | .val a => a

/-- setStoredData (api-offline.ts): localStorage.setItem may throw; the error is
swallowed, leaving the old content in place. writeOk says whether the write landed. -/
def setStoredData {α : Type} (s : Stored α) (data : α) (writeOk : Bool) : Stored α :=
  if writeOk then .val data else s

/-- The two localStorage keys backing the offline store (the settings key is unused). -/
structure LocalStorage where
  categories : Stored (List Category)
  products : Stored (List Product)
deriving DecidableEq

/-- SAMPLE_CATEGORIES (api-offline.ts); t0 is the module-load instant captured by
the new Date() calls in the initializers. -/
def SAMPLE_CATEGORIES (t0 : Nat) : List Category :=
  [ { id := 1, name := "Droguerie", description := some "Produits chimiques, adhésifs, mastics et composés spécialisés", created_at := t0 },
    { id := 2, name := "Sanitaire", description := some "Équipements de plomberie, tuyaux, robinets, chauffe-eau, accessoires de salle de bain", created_at := t0 },
    { id := 3, name := "Peinture", description := some "Peintures, apprêts, pinceaux, rouleaux, accessoires et outils de peinture", created_at := t0 },
    { id := 4, name := "Quincaillerie", description := some "Fixations, vis, boulons, écrous, charnières, serrures et composants métalliques", created_at := t0 },
    { id := 5, name := "Outillage", description := some "Outils à main, outils électriques, équipements de mesure et de sécurité", created_at := t0 },
    { id := 6, name := "Électricité", description := some "Composants électriques, câblage, interrupteurs, prises, luminaires", created_at := t0 } ]

/-- SAMPLE_PRODUCTS (api-offline.ts). -/
def SAMPLE_PRODUCTS (t0 : Nat) : List Product :=
  [ { id := 1, name := "Colle PVC forte", description := some "Adhésif haute résistance pour tuyaux PVC", category_id := 1, category_name := some "Droguerie", purchase_price := 25, selling_price := 35, remaining_stock := 50, min_stock_level := 10, image_url := none, created_at := t0, updated_at := t0 },
    { id := 2, name := "Mastic d\x27étanchéité universel", description := some "Mastic étanche pour joints et fissures", category_id := 1, category_name := some "Droguerie", purchase_price := 18, selling_price := 28, remaining_stock := 75, min_stock_level := 15, image_url := none, created_at := t0, updated_at := t0 },
    { id := 3, name := "Robinet mélangeur chromé", description := some "Robinet mélangeur pour cuisine et salle de bain", category_id := 2, category_name := some "Sanitaire", purchase_price := 150, selling_price := 220, remaining_stock := 25, min_stock_level := 5, image_url := none, created_at := t0, updated_at := t0 },
    { id := 4, name := "Tube PVC Ø100mm", description := some "Tuyau PVC 100mm pour évacuation", category_id := 2, category_name := some "Sanitaire", purchase_price := 45, selling_price := 65, remaining_stock := 100, min_stock_level := 20, image_url := none, created_at := t0, updated_at := t0 },
    { id := 5, name := "Peinture murale blanche 10L", description := some "Peinture acrylique blanche pour murs intérieurs", category_id := 3, category_name := some "Peinture", purchase_price := 180, selling_price := 250, remaining_stock := 40, min_stock_level := 10, image_url := none, created_at := t0, updated_at := t0 },
    { id := 6, name := "Rouleau de peinture professionnel", description := some "Rouleau pour finitions lisses", category_id := 3, category_name := some "Peinture", purchase_price := 15, selling_price := 25, remaining_stock := 80, min_stock_level := 20, image_url := none, created_at := t0, updated_at := t0 },
    { id := 7, name := "Vis à bois 4x40mm (boîte 100)", description := some "Vis pour menuiserie, tête fraisée", category_id := 4, category_name := some "Quincaillerie", purchase_price := 12.5, selling_price := 18, remaining_stock := 200, min_stock_level := 50, image_url := none, created_at := t0, updated_at := t0 },
    { id := 8, name := "Serrure de sécurité 3 points", description := some "Serrure haute sécurité avec 3 clés", category_id := 4, category_name := some "Quincaillerie", purchase_price := 85, selling_price := 125, remaining_stock := 15, min_stock_level := 5, image_url := none, created_at := t0, updated_at := t0 },
    { id := 9, name := "Perceuse visseuse 18V", description := some "Perceuse sans fil avec batterie et chargeur", category_id := 5, category_name := some "Outillage", purchase_price := 280, selling_price := 420, remaining_stock := 12, min_stock_level := 3, image_url := none, created_at := t0, updated_at := t0 },
    { id := 10, name := "Marteau de charpentier 500g", description := some "Marteau avec manche bois", category_id := 5, category_name := some "Outillage", purchase_price := 35, selling_price := 55, remaining_stock := 25, min_stock_level := 8, image_url := none, created_at := t0, updated_at := t0 },
    { id := 11, name := "Câble électrique 2.5mm² (rouleau 100m)", description := some "Câble pour installations électriques", category_id := 6, category_name := some "Électricité", purchase_price := 85, selling_price := 120, remaining_stock := 20, min_stock_level := 5, image_url := none, created_at := t0, updated_at := t0 },
    { id := 12, name := "Interrupteur simple blanc", description := some "Interrupteur mural blanc", category_id := 6, category_name := some "Électricité", purchase_price := 12, selling_price := 18, remaining_stock := 100, min_stock_level := 25, image_url := none, created_at := t0, updated_at := t0 } ]

/-- initializeData (api-offline.ts): read both keys first, then seed whichever
collection came back empty. okCats / okProds are the write outcomes. -/
def initializeData (st : LocalStorage) (t0 : Nat) (okCats okProds : Bool) : LocalStorage :=
  let categories : List Category := getStoredData st.categories []
  let products : List Product := getStoredData st.products []
  let st1 :=
    if categories.length = 0 then
      { st with categories := setStoredData st.categories (SAMPLE_CATEGORIES t0) okCats }
    else st
  if products.length = 0 then
    { st1 with products := setStoredData st1.products (SAMPLE_PRODUCTS t0) okProds }
  else st1

/-- String.toLowerCase as used for the case-insensitive search. -/
def lowerChars (s : String) : List Char :=
  s.data.map Char.toLower

/-- JavaScript String.includes: the needle occurs contiguously in the haystack. -/
def substringOf (needle haystack : List Char) : Bool :=
  haystack.tails.any (fun t => needle.isPrefixOf t)

/-- The search predicate of offlineApi.getProducts: name matches, or the
optional description exists and matches (optional chaining yields undefined,
hence false, when description is missing). searchLower is already lowered. -/
def matchesSearch (searchLower : List Char) (p : Product) : Bool :=
  substringOf searchLower (lowerChars p.name) ||
    (match p.description with
     | some d => substringOf searchLower (lowerChars d)
     | none => false)

/-- The category query parameter: the literal string all, or a parsed numeric id. -/
inductive CategoryFilter where
  | all
  | byId (id : Int)
deriving DecidableEq

/-- One step of the category_name join: find(c with id = category_id) then
name-or-Unknown (the JavaScript or-else also replaces an empty name). -/
def annotateProduct (categories : List Category) (p : Product) : Product :=
  let n : String :=
    match categories.find? (fun c => c.id == p.category_id) with
    | some c => if c.name = "" then "Unknown" else c.name
    | none => "Unknown"
  { p with category_name := some n }

/-- The sort comparator of offlineApi.getProducts: newer created_at first;
a is allowed before b exactly when the comparator is non-positive. -/
def createdAtDesc (a b : Product) : Bool :=
  decide (b.created_at ≤ a.created_at)

/-- Stable insertion step: place a before the first element it may precede. -/
def insertSorted {α : Type} (le : α → α → Bool) (a : α) : List α → List α
  | [] => [a]
  | b :: bs => if le a b then a :: b :: bs else b :: insertSorted le a bs

/-- Array.prototype.sort with a consistent comparator: the ECMAScript spec
requires a stable sort, and for a total transitive comparator the stable
sorted permutation is unique, so a stable insertion sort is an exact model. -/
def jsSort {α : Type} (le : α → α → Bool) : List α → List α
  | [] => []
  | a :: l => insertSorted le a (jsSort le l)

/-- Response shape of offlineApi.getCategories / api.getCategories. -/
structure CategoriesResp where
  success : Bool
  categories : List Category
deriving DecidableEq

/-- Response shape of offlineApi.getProducts (no pagination offline). -/
structure OfflineProductsResp where
  success : Bool
  products : List Product
deriving DecidableEq

/-- Response shape of create operations. -/
structure CreateResp where
  success : Bool
  id : Option Int
  error : Option String
deriving DecidableEq

/-- Response shape of update / delete operations. -/
structure SimpleResp where
  success : Bool
  error : Option String
deriving DecidableEq

/-- Response shape of image uploads. -/
structure UploadResp where
  success : Bool
  imageUrl : Option String
  error : Option String
deriving DecidableEq

/-- Response shape of api.getProductById. -/
structure ProductResp where
  success : Bool
  product : Option Product
  error : Option String
deriving DecidableEq

/-- Pagination metadata of the networked product listing contract. -/
structure Pagination where
  currentPage : Nat
  totalPages : Nat
  totalItems : Nat
  itemsPerPage : Nat
  hasNextPage : Bool
  hasPrevPage : Bool
deriving DecidableEq

/-- Response shape of api.getProducts. -/
structure ProductsResp where
  success : Bool
  products : List Product
  pagination : Option Pagination
deriving DecidableEq

/-- The FileReader outcome for an uploaded file in offline mode: either the
base64 data URL produced by readAsDataURL, or a reader error. -/
inductive FileRead where
  | ok (dataUrl : String)
  | readError
deriving DecidableEq

/-- The joined collection read by offlineApi.getProducts before filtering: the
stored products (defaulting to the samples) with category_name populated from
the stored categories (defaulting to the sample categories). -/
def annotatedProducts (st : LocalStorage) (t0 : Nat) : List Product :=
  (getStoredData st.products (SAMPLE_PRODUCTS t0)).map
    (annotateProduct (getStoredData st.categories (SAMPLE_CATEGORIES t0)))

/-- Math.max(...products.map(p => p.id), 0) + 1 of offlineApi.createProduct. -/
def newProductId (products : List Product) : Int :=
  (products.map (fun p => p.id)).foldr max 0 + 1

/-- The merged record of offlineApi.updateProduct: spread of the old product,
then the payload (which carries no created_at or category_name), then updated_at. -/
def applyUpdate (old : Product) (u : UpdateData) (now : Nat) : Product :=
  { old with
    id := u.id, name := u.name, description := u.description,
    category_id := u.category_id, purchase_price := u.purchase_price,
    selling_price := u.selling_price, remaining_stock := u.remaining_stock,
    min_stock_level := u.min_stock_level, image_url := u.image_url,
    updated_at := now }

/-- findIndex on id followed by in-place assignment at that index: replace the
first product whose id matches, or report none when findIndex gives -1. -/
def updateFirstMatch (l : List Product) (u : UpdateData) (now : Nat) : Option (List Product) :=
  match l with
  | [] => none
  | p :: rest =>
    if p.id == u.id then some (applyUpdate p u now :: rest)
    else (updateFirstMatch rest u now).map (fun l2 => p :: l2)

namespace offlineApi

/-- offlineApi.getCategories. -/
def getCategories (st : LocalStorage) (t0 : Nat) : CategoriesResp :=
  { success := true, categories := getStoredData st.categories (SAMPLE_CATEGORIES t0) }

/-- offlineApi.getProducts: default to the samples, join category names, filter
by search then category, sort by created_at descending (stable Array.sort). -/
def getProducts (st : LocalStorage) (t0 : Nat) (search : String) (category : CategoryFilter) :
    OfflineProductsResp :=
  let products1 := annotatedProducts st t0
  let products2 :=
    if search = "" then products1
    else products1.filter (matchesSearch (lowerChars search))
  let products3 :=
    match category with
    | .all => products2
    | .byId cid => products2.filter (fun p => p.category_id == cid)
  { success := true, products := jsSort createdAtDesc products3 }

/-- offlineApi.createProduct: id assignment, push, swallowed write. -/
def createProduct (st : LocalStorage) (t0 : Nat) (productData : CreateData) (now : Nat)
    (writeOk : Bool) : CreateResp × LocalStorage :=
  let products := getStoredData st.products (SAMPLE_PRODUCTS t0)
  let nid := newProductId products
  let newProduct : Product :=
    { id := nid, name := productData.name, description := productData.description,
      category_id := productData.category_id, category_name := some "",
      purchase_price := productData.purchase_price, selling_price := productData.selling_price,
      remaining_stock := productData.remaining_stock,
      min_stock_level := productData.min_stock_level,
      image_url := productData.image_url, created_at := now, updated_at := now }
  ({ success := true, id := some nid, error := none },
   { st with products := setStoredData st.products (products ++ [newProduct]) writeOk })

/-- offlineApi.updateProduct: note the default here is the empty list, not the
samples; not-found is reported as a failure. -/
def updateProduct (st : LocalStorage) (productData : UpdateData) (now : Nat)
    (writeOk : Bool) : SimpleResp × LocalStorage :=
  let products := getStoredData st.products []
  match updateFirstMatch products productData now with
  | none => ({ success := false, error := some "Product not found" }, st)
  | some products2 =>
    ({ success := true, error := none },
     { st with products := setStoredData st.products products2 writeOk })

/-- offlineApi.deleteProduct: filter out the id; unchanged length means not found. -/
def deleteProduct (st : LocalStorage) (id : Int) (writeOk : Bool) :
    SimpleResp × LocalStorage :=
  let products := getStoredData st.products []
  let filteredProducts := products.filter (fun p => !(p.id == id))
  if products.length = filteredProducts.length then
    ({ success := false, error := some "Product not found" }, st)
  else
    ({ success := true, error := none },
     { st with products := setStoredData st.products filteredProducts writeOk })

/-- offlineApi.uploadImage: resolves with the data URL, or a process failure. -/
def uploadImage (file : FileRead) : UploadResp :=
  match file with
  | .ok dataUrl => { success := true, imageUrl := some dataUrl, error := none }
  | .readError => { success := false, imageUrl := none, error := some "Failed to process image" }

/-- offlineApi.deleteImage: a no-op success in offline mode. -/
def deleteImage (_imageUrl : String) : SimpleResp :=
  { success := true, error := none }

end offlineApi

/-- Outcome of a fetch call as seen by the Facade: a parsed response object, or
a transport-level failure (fetch threw, or response.json threw). -/
inductive NetResult (α : Type) where
  | ok (response : α)
  | transportFail

namespace api

/-- api.getCategories: forward the network response, fall back offline on throw. -/
def getCategories (net : NetResult CategoriesResp) (st : LocalStorage) (t0 : Nat) :
    CategoriesResp :=
  match net with
  | .ok r => r
  | .transportFail => offlineApi.getCategories st t0

/-- api.getProducts: on transport failure, call the offline engine with only
search and category (sortBy and sortOrder are not forwarded) and synthesize
single-page pagination metadata. -/
def getProducts (net : NetResult ProductsResp) (st : LocalStorage) (t0 : Nat)
    (search : String) (category : CategoryFilter) (page limit : Nat)
    (_sortBy _sortOrder : String) : ProductsResp :=
  match net with
  | .ok r => r
  | .transportFail =>
    let offlineResult := offlineApi.getProducts st t0 search category
    { success := offlineResult.success,
      products := offlineResult.products,
      pagination := some
        { currentPage := page, totalPages := 1,
          totalItems := offlineResult.products.length,
          itemsPerPage := limit, hasNextPage := false, hasPrevPage := false } }

/-- api.getProductById: no offline equivalent; transport failure is reported. -/
def getProductById (net : NetResult ProductResp) : ProductResp :=
  match net with
  | .ok r => r
  | .transportFail => { success := false, product := none, error := some "Backend unavailable" }

/-- api.createProduct: the catch branch does NOT call the offline store; it
returns a literal failure object with id 0 and leaves local storage untouched. -/
def createProduct (net : NetResult CreateResp) (st : LocalStorage) :
    CreateResp × LocalStorage :=
  match net with
  | .ok r => (r, st)
  | .transportFail =>
    ({ success := false, id := some 0,
       error := some "Falling back to offline mode for create product" }, st)

/-- api.updateProduct: falls back to offlineApi.updateProduct. -/
def updateProduct (net : NetResult SimpleResp) (st : LocalStorage)
    (productData : UpdateData) (now : Nat) (writeOk : Bool) :
    SimpleResp × LocalStorage :=
  match net with
  | .ok r => (r, st)
  | .transportFail => offlineApi.updateProduct st productData now writeOk

/-- api.deleteProduct: falls back to offlineApi.deleteProduct. -/
def deleteProduct (net : NetResult SimpleResp) (st : LocalStorage) (id : Int)
    (writeOk : Bool) : SimpleResp × LocalStorage :=
  match net with
  | .ok r => (r, st)
  | .transportFail => offlineApi.deleteProduct st id writeOk

/-- api.uploadImage: falls back to offlineApi.uploadImage. -/
def uploadImage (net : NetResult UploadResp) (file : FileRead) : UploadResp :=
  match net with
  | .ok r => r
  | .transportFail => offlineApi.uploadImage file

/-- api.deleteImage: falls back to offlineApi.deleteImage. -/
def deleteImage (net : NetResult SimpleResp) (imageUrl : String) : SimpleResp :=
  match net with
  | .ok r => r
  | .transportFail => offlineApi.deleteImage imageUrl

end api

/-!
The serverless JSON-file backend (exports.handler). Its records are loose JSON
documents: fields can be absent, so created_at and updated_at are optional here
(the PUT branch rebuilds a record from a request body that carries neither).
-/

/-- A product document as stored in /tmp/products.json by the serverless handler. -/
structure JProduct where
  id : Int
  name : String
  description : Option String
  category_id : Int
  purchase_price : Rat
  selling_price : Rat
  remaining_stock : Int
  min_stock_level : Int
  image_url : Option String
  created_at : Option Nat
  updated_at : Option Nat
deriving DecidableEq

/-- The two data files of the serverless backend. -/
structure JsonFiles where
  categoriesFile : Stored (List Category)
  productsFile : Stored (List JProduct)
deriving DecidableEq

/-- The default category seed written by the serverless initializeData. -/
def jsonDefaultCategories (t0 : Nat) : List Category :=
  [ { id := 1, name := "Outils", description := some "Outils de bricolage et construction", created_at := t0 },
    { id := 2, name := "Électricité", description := some "Matériel électrique et éclairage", created_at := t0 },
    { id := 3, name := "Plomberie", description := some "Équipements de plomberie", created_at := t0 },
    { id := 4, name := "Peinture", description := some "Peintures et accessoires", created_at := t0 },
    { id := 5, name := "Jardinage", description := some "Outils et produits de jardinage", created_at := t0 } ]

/-- The serverless initializeData: fs.access only fails on a missing file, so a
corrupt (unparseable) file is left in place and only absent files are seeded.
The product seed is abbreviated to the structure of the records; its exact
seven entries play no role in the claims settled against this backend. -/
def jsonInitializeData (fsx : JsonFiles) (t0 : Nat) (seedProducts : List JProduct) : JsonFiles :=
  let f1 : Stored (List Category) :=
    match fsx.categoriesFile with
    | .absent => .val (jsonDefaultCategories t0)
    | other => other
  let f2 : Stored (List JProduct) :=
    match fsx.productsFile with
    | .absent => .val seedProducts
    | other => other
  { categoriesFile := f1, productsFile := f2 }

/-- JSON.parse of a stored file: a corrupt file throws (Except.error); an absent
file cannot be reached here because the handler runs initializeData first. -/
def jsonParseFile {α : Type} (f : Stored (List α)) : Except String (List α) :=
  match f with
  | .val l => .ok l
  | .corrupt => .error "Unexpected token in JSON"
  | .absent => .error "ENOENT"

/-- An HTTP response of the serverless handler, reduced to the fields the
claims are about. -/
structure JsonCategoriesResp where
  statusCode : Nat
  success : Bool
  categories : Option (List Category)
  error : Option String
deriving DecidableEq

/-- The GET categories branch of exports.handler: initializeData, then read and
parse; a parse failure is caught by the surrounding try and surfaced as a 500
failure response, never as a fallback to the seed. -/
def handlerGetCategories (fsx : JsonFiles) (t0 : Nat) (seedProducts : List JProduct) :
    JsonCategoriesResp :=
  let fsx2 := jsonInitializeData fsx t0 seedProducts
  match jsonParseFile fsx2.categoriesFile with
  | .ok l => { statusCode := 200, success := true, categories := some l, error := none }
  | .error msg => { statusCode := 500, success := false, categories := none, error := some msg }

/-- The record written by the PUT branch of exports.handler: a spread of the
request body alone plus updated_at, so created_at is not carried over. -/
def jsonPutRecord (body : UpdateData) (now : Nat) : JProduct :=
  { id := body.id, name := body.name, description := body.description,
    category_id := body.category_id, purchase_price := body.purchase_price,
    selling_price := body.selling_price, remaining_stock := body.remaining_stock,
    min_stock_level := body.min_stock_level, image_url := body.image_url,
    created_at := none, updated_at := some now }

/-- findIndex on id in the PUT branch: replace the first matching document, or
none when the id is absent. -/
def jsonPutFirstMatch (l : List JProduct) (body : UpdateData) (now : Nat) :
    Option (List JProduct) :=
  match l with
  | [] => none
  | p :: rest =>
    if p.id == body.id then some (jsonPutRecord body now :: rest)
    else (jsonPutFirstMatch rest body now).map (fun l2 => p :: l2)

/-- The PUT products branch of exports.handler, acting on the parsed products
file: when findIndex yields -1 nothing is written, yet the response is still a
200 with success true. -/
def handlerPutProducts (products : List JProduct) (body : UpdateData) (now : Nat) :
    SimpleResp × List JProduct :=
  match jsonPutFirstMatch products body now with
  | none => ({ success := true, error := none }, products)
  | some products2 => ({ success := true, error := none }, products2)

/-!
Spec-side predicates and the operation sequences quantified over by the
id-uniqueness property.
-/

/-- Stated from the spec sentence: the search string occurs case-insensitively
as a substring of the text. -/
def OccursCaseInsensitive (s t : String) : Prop :=
  substringOf (lowerChars s) (lowerChars t) = true

/-- Stated from the spec sentence: the search occurs in the product name or in
its description when one exists. -/
def SpecSearchHit (s : String) (p : Product) : Prop :=
  OccursCaseInsensitive s p.name
  ∨ ∃ d, p.description = some d ∧ OccursCaseInsensitive s d

/-- The live Product collection of the offline store: what its reads observe
(the stored list, or the sample seed when the key is absent or corrupt). -/
def liveProducts (st : LocalStorage) (t0 : Nat) : List Product :=
  getStoredData st.products (SAMPLE_PRODUCTS t0)

/-- One create or delete request against the offline store, carrying its
timestamp and whether the localStorage write lands. -/
inductive StoreOp where
  | create (productData : CreateData) (now : Nat) (writeOk : Bool)
  | remove (id : Int) (writeOk : Bool)

/-- The state transition of one store operation. -/
def applyStoreOp (t0 : Nat) (st : LocalStorage) (op : StoreOp) : LocalStorage :=
  match op with
  | .create pd now ok => (offlineApi.createProduct st t0 pd now ok).2
  | .remove i ok => (offlineApi.deleteProduct st i ok).2

/-- The state after a sequence of create and delete operations. -/
def applyStoreOps (t0 : Nat) (st : LocalStorage) (ops : List StoreOp) : LocalStorage :=
  ops.foldl (applyStoreOp t0) st

/-!
Concrete fixtures used by counterexamples and witnesses.
-/

/-- An empty browser medium: neither localStorage key exists yet. -/
def emptyStorage : LocalStorage :=
  { categories := .absent, products := .absent }

/-- A small concrete category. -/
def catW : Category :=
  { id := 1, name := "c", description := none, created_at := 0 }

/-- A small concrete product with id 1, name a, created_at 10. -/
def pW : Product :=
  { id := 1, name := "a", description := none, category_id := 1, category_name := none,
    purchase_price := 1, selling_price := 2, remaining_stock := 3, min_stock_level := 10,
    image_url := none, created_at := 10, updated_at := 10 }

/-- A second concrete product with id 2, name b, created_at 20. -/
def pW2 : Product :=
  { pW with id := 2, name := "b", created_at := 20, updated_at := 20 }

/-- A concrete seeded local storage holding one category and two products. -/
def stW : LocalStorage :=
  { categories := .val [catW], products := .val [pW, pW2] }

/-- A storage whose two products share the same created_at, stored with the
higher id first, to exercise the tie-break behaviour of listings. -/
def stTie : LocalStorage :=
  { categories := .val [catW],
    products := .val [{ pW2 with created_at := 10, updated_at := 10 }, pW] }

/-- A concrete create payload. -/
def cdW : CreateData :=
  { name := "Pince", description := none, category_id := 1, purchase_price := 5,
    selling_price := 9, remaining_stock := 3, min_stock_level := 10, image_url := none }

/-- A concrete update payload whose id 1 exists in stW. -/
def udW : UpdateData :=
  { id := 1, name := "a2", description := some "d2", category_id := 1, purchase_price := 4,
    selling_price := 6, remaining_stock := 7, min_stock_level := 10, image_url := none }

/-- An update payload whose id 99 matches no stored product. -/
def udMissing : UpdateData :=
  { udW with id := 99 }

/-- pW as it appears after the category_name join against [catW]. -/
def pW5 : Product :=
  { pW with category_name := some "c" }

/-- A concrete operation sequence: one create, then one delete. -/
def opsW : List StoreOp :=
  [.create cdW 5 true, .remove 1 true]

/-- A concrete JSON-file product document with created_at present. -/
def jpW : JProduct :=
  { id := 1, name := "Marteau 500g", description := some "Marteau à panne fendue 500g",
    category_id := 1, purchase_price := 25, selling_price := 35, remaining_stock := 15,
    min_stock_level := 10, image_url := none, created_at := some 100, updated_at := some 100 }

/-!
C1. Fail-over behaviour of every Facade operation on transport failure.
-/

/-- C1 counterexample: on transport failure api.createProduct does not return
the result of the equivalent offline operation; it returns a literal failure
with id 0, while offlineApi.createProduct on the same state reports success. -/
theorem c1_counterexample :
    (api.createProduct .transportFail stW).1.success = false
    ∧ (offlineApi.createProduct stW 0 cdW 5 true).1.success = true
    ∧ (api.createProduct .transportFail stW).1 ≠ (offlineApi.createProduct stW 0 cdW 5 true).1 := by
  refine ⟨rfl, rfl, ?_⟩
  decide

/-- C1 amended: on transport failure the Facade returns the offline result for
getCategories, updateProduct, deleteProduct, uploadImage and deleteImage, and
the offline products (wrapped with synthesized pagination) for getProducts;
createProduct instead returns a literal failure with id 0, and getProductById
returns a failure result. -/
theorem c1_amended_transport_failure (st : LocalStorage) (t0 : Nat) (search : String)
    (category : CategoryFilter) (page limit : Nat) (sb so : String) (u : UpdateData)
    (did : Int) (now : Nat) (writeOk : Bool) (file : FileRead) (url : String) :
    api.getCategories .transportFail st t0 = offlineApi.getCategories st t0
    ∧ (api.getProducts .transportFail st t0 search category page limit sb so).products
        = (offlineApi.getProducts st t0 search category).products
    ∧ api.createProduct .transportFail st
        = ({ success := false, id := some 0,
             error := some "Falling back to offline mode for create product" }, st)
    ∧ api.updateProduct .transportFail st u now writeOk
        = offlineApi.updateProduct st u now writeOk
    ∧ api.deleteProduct .transportFail st did writeOk
        = offlineApi.deleteProduct st did writeOk
    ∧ api.uploadImage .transportFail file = offlineApi.uploadImage file
    ∧ api.deleteImage .transportFail url = offlineApi.deleteImage url
    ∧ api.getProductById .transportFail
        = { success := false, product := none, error := some "Backend unavailable" } :=
  ⟨rfl, rfl, rfl, rfl, rfl, rfl, rfl, rfl⟩

/-!
C8. Synthesized pagination on the offline fallback path.
-/

/-- C8: when the product listing falls back offline, the Facade returns the
offline products together with single-page pagination metadata: currentPage is
the requested page, totalPages is 1, totalItems is the number of returned
products, itemsPerPage is the requested limit, and both page flags are false. -/
theorem c8_offline_pagination (st : LocalStorage) (t0 : Nat) (search : String)
    (category : CategoryFilter) (page limit : Nat) (sb so : String) :
    api.getProducts .transportFail st t0 search category page limit sb so
      = { success := (offlineApi.getProducts st t0 search category).success,
          products := (offlineApi.getProducts st t0 search category).products,
          pagination := some
            { currentPage := page, totalPages := 1,
              totalItems := (offlineApi.getProducts st t0 search category).products.length,
              itemsPerPage := limit, hasNextPage := false, hasPrevPage := false } } :=
  rfl

/-!
C3. The JSON-file backend's PUT branch rebuilds the record from the request
body alone, so the stored created_at is dropped rather than preserved.
-/

/-- C3: updating the existing product id 1 of the JSON-file backend (stored
created_at 100) with a request body that carries no created_at leaves a stored
record whose created_at is absent, not the original 100, while still reporting
success; reading the product back cannot yield the original created_at. -/
theorem c3_json_update_drops_created_at :
    jpW.created_at = some 100
    ∧ ((handlerPutProducts [jpW] udW 200).2.map (fun p => p.created_at)) = [none]
    ∧ (handlerPutProducts [jpW] udW 200).1.success = true := by
  decide

/-!
C9. Recovery from corrupt stored content.
-/

/-- C9 counterexample: the JSON-file variant does not fall back to the seed on
a corrupt categories file; the GET categories read surfaces a 500 failure. -/
theorem c9_counterexample :
    (handlerGetCategories { categoriesFile := .corrupt, productsFile := .corrupt } 0 []).success
      = false
    ∧ (handlerGetCategories { categoriesFile := .corrupt, productsFile := .corrupt } 0 []).statusCode
      = 500 :=
  ⟨rfl, rfl⟩

/-- C9 amended: the local-storage variant recovers from corrupt stored content
by reading the default seed (reads behave exactly as on a freshly seeded
medium and report success), while the JSON-file variant surfaces a corrupt
file as a failure response. -/
theorem c9_amended_corrupt_reads (t0 : Nat) (search : String) (category : CategoryFilter)
    (pf : Stored (List JProduct)) (seedProds : List JProduct) :
    offlineApi.getCategories { categories := .corrupt, products := .corrupt } t0
      = { success := true, categories := SAMPLE_CATEGORIES t0 }
    ∧ offlineApi.getProducts { categories := .corrupt, products := .corrupt } t0 search category
      = offlineApi.getProducts
          { categories := .val (SAMPLE_CATEGORIES t0), products := .val (SAMPLE_PRODUCTS t0) }
          t0 search category
    ∧ (offlineApi.getProducts { categories := .corrupt, products := .corrupt } t0 search category).success
      = true
    ∧ (handlerGetCategories { categoriesFile := .corrupt, productsFile := pf } t0 seedProds).success
      = false :=
  ⟨rfl, rfl, rfl, rfl⟩

/-!
C2. Not-found on update at the Facade boundary.
-/

/-- When no stored product has the payload id, the findIndex-and-set of the
offline updateProduct yields no match. -/
theorem updateFirstMatch_eq_none {l : List Product} {u : UpdateData} {now : Nat}
    (h : ∀ p ∈ l, p.id ≠ u.id) : updateFirstMatch l u now = none := by
  induction l with
  | nil => rfl
  | cons p rest ih =>
    have hp : ¬(p.id == u.id) = true := by
      simpa using h p (List.mem_cons_self p rest)
    simp only [updateFirstMatch, if_neg hp]
    rw [ih (fun q hq => h q (List.mem_cons_of_mem _ hq))]
    rfl

/-- When no stored document has the body id, the findIndex of the JSON-file
PUT branch yields no match. -/
theorem jsonPutFirstMatch_eq_none {l : List JProduct} {u : UpdateData} {now : Nat}
    (h : ∀ p ∈ l, p.id ≠ u.id) : jsonPutFirstMatch l u now = none := by
  induction l with
  | nil => rfl
  | cons p rest ih =>
    have hp : ¬(p.id == u.id) = true := by
      simpa using h p (List.mem_cons_self p rest)
    simp only [jsonPutFirstMatch, if_neg hp]
    rw [ih (fun q hq => h q (List.mem_cons_of_mem _ hq))]
    rfl

/-- C2 counterexample: the JSON-file backend answers a PUT whose id matches no
stored product with a 200 success body, and the Facade forwards that success
to the caller, so an update of a missing id is reported as a silent success,
not as a failure. -/
theorem c2_counterexample :
    jpW.id ≠ udMissing.id
    ∧ (handlerPutProducts [jpW] udMissing 5).1 = { success := true, error := none }
    ∧ (api.updateProduct (.ok (handlerPutProducts [jpW] udMissing 5).1)
         stW udMissing 5 true).1.success = true := by
  refine ⟨by decide, by decide, by decide⟩

/-- C2 amended: only the offline store surfaces a missing update id as a
failure (Product not found, state unchanged); the JSON-file backend responds
success true and leaves its collection unchanged when the id matches nothing. -/
theorem c2_amended_not_found (st : LocalStorage) (u : UpdateData) (now : Nat) (writeOk : Bool)
    (l : List JProduct) (body : UpdateData) (now2 : Nat)
    (hOff : ∀ p ∈ getStoredData st.products ([] : List Product), p.id ≠ u.id)
    (hJson : ∀ p ∈ l, p.id ≠ body.id) :
    offlineApi.updateProduct st u now writeOk
      = ({ success := false, error := some "Product not found" }, st)
    ∧ handlerPutProducts l body now2 = ({ success := true, error := none }, l) := by
  constructor
  · simp only [offlineApi.updateProduct, updateFirstMatch_eq_none hOff]
  · simp only [handlerPutProducts, jsonPutFirstMatch_eq_none hJson]

/-- C2 witness: the amended statement evaluated at a missing id 99 against a
one-product store on each backend. -/
theorem c2_witness :
    ((∀ p ∈ getStoredData stW.products ([] : List Product), p.id ≠ udMissing.id)
     ∧ (∀ p ∈ [jpW], p.id ≠ udMissing.id))
    ∧ (offlineApi.updateProduct stW udMissing 7 true
         = ({ success := false, error := some "Product not found" }, stW)
       ∧ handlerPutProducts [jpW] udMissing 9 = ({ success := true, error := none }, [jpW])) :=
  ⟨⟨by decide, by decide⟩,
   c2_amended_not_found stW udMissing 7 true [jpW] udMissing 9 (by decide) (by decide)⟩

/-!
C4. Sort order of product listings.
-/

/-- C4 counterexample: a listing that requests sortField name in ascending
order and falls back to the offline path comes back sorted by created_at
descending instead; with stored names a (older) and b (newer) the result is
not sorted by name ascending. -/
theorem c4_counterexample :
    ((api.getProducts .transportFail stW 0 "" .all 1 50 "created_at" "ASC").products.map
        (fun p => p.created_at)) = [20, 10]
    ∧ ¬ List.Pairwise (fun a b : Product => a.created_at ≤ b.created_at)
        (api.getProducts .transportFail stW 0 "" .all 1 50 "created_at" "ASC").products
    ∧ ((api.getProducts .transportFail stTie 0 "" .all 1 50 "created_at" "DESC").products.map
        (fun p => p.id)) = [2, 1]
    ∧ ¬ List.Pairwise (fun a b : Product => a.id ≤ b.id)
        (api.getProducts .transportFail stTie 0 "" .all 1 50 "created_at" "DESC").products := by
  refine ⟨by decide, by decide, by decide, by decide⟩

/-- Membership in an insertion step: the new element or an old one. -/
theorem mem_insertSorted {α : Type} (le : α → α → Bool) (a x : α) (l : List α) :
    x ∈ insertSorted le a l ↔ x = a ∨ x ∈ l := by
  induction l with
  | nil => simp [insertSorted]
  | cons b bs ih =>
    by_cases hb : le a b = true
    · simp [insertSorted, hb]
    · simp only [insertSorted, if_neg hb, List.mem_cons, ih]
      tauto

/-- Membership is preserved by the modelled stable sort. -/
theorem mem_jsSort {α : Type} (le : α → α → Bool) (x : α) (l : List α) :
    x ∈ jsSort le l ↔ x ∈ l := by
  induction l with
  | nil => simp [jsSort]
  | cons a as ih =>
    simp only [jsSort, mem_insertSorted, List.mem_cons, ih]

/-- Inserting into a sorted list keeps it sorted, for a transitive and total
comparator relation. -/
theorem pairwise_insertSorted {α : Type} (le : α → α → Bool)
    (htrans : ∀ a b c : α, le a b = true → le b c = true → le a c = true)
    (htotal : ∀ a b : α, le a b = true ∨ le b a = true)
    (a : α) (l : List α) (h : List.Pairwise (fun x y => le x y = true) l) :
    List.Pairwise (fun x y => le x y = true) (insertSorted le a l) := by
  induction l with
  | nil => simp [insertSorted]
  | cons b bs ih =>
    rcases List.pairwise_cons.mp h with ⟨hb, hbs⟩
    by_cases hab : le a b = true
    · rw [insertSorted, if_pos hab]
      refine List.pairwise_cons.mpr ⟨?_, h⟩
      intro x hx
      rcases List.mem_cons.mp hx with rfl | hx
      · exact hab
      · exact htrans a b x hab (hb x hx)
    · have hba : le b a = true := (htotal a b).resolve_left hab
      rw [insertSorted, if_neg hab]
      refine List.pairwise_cons.mpr ⟨?_, ih hbs⟩
      intro x hx
      rcases (mem_insertSorted le a x bs).mp hx with rfl | hx
      · exact hba
      · exact hb x hx

/-- The modelled stable sort produces a sorted list. -/
theorem pairwise_jsSort {α : Type} (le : α → α → Bool)
    (htrans : ∀ a b c : α, le a b = true → le b c = true → le a c = true)
    (htotal : ∀ a b : α, le a b = true ∨ le b a = true)
    (l : List α) :
    List.Pairwise (fun x y => le x y = true) (jsSort le l) := by
  induction l with
  | nil => exact List.Pairwise.nil
  | cons a as ih => exact pairwise_insertSorted le htrans htotal a (jsSort le as) ih

/-- The offline comparator sort always yields a created_at-descending list. -/
theorem pairwise_createdAtDesc_jsSort (l : List Product) :
    List.Pairwise (fun a b : Product => b.created_at ≤ a.created_at)
      (jsSort createdAtDesc l) := by
  have h := pairwise_jsSort createdAtDesc
    (fun a b c hab hbc => by
      simp only [createdAtDesc, decide_eq_true_eq] at hab hbc ⊢
      omega)
    (fun a b => by
      simp only [createdAtDesc, decide_eq_true_eq]
      omega)
    l
  exact h.imp (fun hab => by simpa [createdAtDesc] using hab)

/-- C4 amended: the offline fallback ignores the requested sortField and
sortOrder entirely; whatever listing is requested, its products come back
sorted by created_at descending (ties keep the stored order of the stable
sort, with no id tie-break). -/
theorem c4_amended_created_at_desc (st : LocalStorage) (t0 : Nat) (search : String)
    (category : CategoryFilter) :
    List.Pairwise (fun a b : Product => b.created_at ≤ a.created_at)
      ((offlineApi.getProducts st t0 search category).products) :=
  pairwise_createdAtDesc_jsSort _

/-!
C5. Search is a case-insensitive substring filter over name and description.
-/

/-- The boolean search predicate of the code coincides with the spec's
case-insensitive occurrence condition. -/
theorem matchesSearch_iff (s : String) (p : Product) :
    matchesSearch (lowerChars s) p = true ↔ SpecSearchHit s p := by
  unfold matchesSearch SpecSearchHit OccursCaseInsensitive
  cases hd : p.description with
  | none => simp [hd]
  | some d => simp [hd]

/-- C5: with a non-empty search string, a product is in the offline listing
exactly when it is one of the joined stored products and the search occurs
case-insensitively in its name or description; with an empty search string
every joined stored product is kept. -/
theorem c5_search_filter (st : LocalStorage) (t0 : Nat) (s : String) (p : Product)
    (hs : s ≠ "") :
    (p ∈ (offlineApi.getProducts st t0 s .all).products
      ↔ p ∈ annotatedProducts st t0 ∧ SpecSearchHit s p)
    ∧ (p ∈ (offlineApi.getProducts st t0 "" .all).products
      ↔ p ∈ annotatedProducts st t0) := by
  constructor
  · simp only [offlineApi.getProducts, if_neg hs, mem_jsSort, List.mem_filter, matchesSearch_iff]
  · simp [offlineApi.getProducts, mem_jsSort]

/-- C5 witness: searching for a in the two-product store finds the joined
product named a. -/
theorem c5_witness :
    ("a" ≠ "")
    ∧ ((pW5 ∈ (offlineApi.getProducts stW 0 "a" .all).products
          ↔ pW5 ∈ annotatedProducts stW 0 ∧ SpecSearchHit "a" pW5)
       ∧ (pW5 ∈ (offlineApi.getProducts stW 0 "" .all).products
          ↔ pW5 ∈ annotatedProducts stW 0)) :=
  ⟨by decide, c5_search_filter stW 0 "a" pW5 (by decide)⟩

/-!
C6. Id uniqueness under create and delete sequences.
-/

/-- Every element is bounded by the fold that seeds the next id. -/
theorem le_foldr_max (l : List Int) (x : Int) (hx : x ∈ l) : x ≤ l.foldr max 0 := by
  induction l with
  | nil => cases hx
  | cons a rest ih =>
    rcases List.mem_cons.mp hx with rfl | h
    · exact le_max_left _ _
    · exact le_trans (ih h) (le_max_right _ _)

/-- The id assigned by a create collides with no existing id. -/
theorem newProductId_fresh (l : List Product) :
    newProductId l ∉ l.map (fun p => p.id) := by
  intro hmem
  have h := le_foldr_max (l.map (fun p => p.id)) _ hmem
  unfold newProductId at h
  omega

/-- Appending a product with a fresh id keeps the id list duplicate-free. -/
theorem nodup_ids_append_fresh (l : List Product) (np : Product)
    (h : (l.map (fun p => p.id)).Nodup) (hnp : np.id ∉ l.map (fun p => p.id)) :
    ((l ++ [np]).map (fun p => p.id)).Nodup := by
  rw [List.map_append, List.nodup_append]
  refine ⟨h, List.nodup_singleton _, ?_⟩
  intro x hx hx2
  simp only [List.map_cons, List.map_nil, List.mem_singleton] at hx2
  subst hx2
  exact hnp hx

/-- One create or delete preserves duplicate-freedom of the live ids. -/
theorem nodup_ids_applyStoreOp (t0 : Nat) (st : LocalStorage) (op : StoreOp)
    (h : ((liveProducts st t0).map (fun p => p.id)).Nodup) :
    ((liveProducts (applyStoreOp t0 st op) t0).map (fun p => p.id)).Nodup := by
  cases op with
  | create pd now ok =>
    cases ok with
    | false => exact h
    | true => exact nodup_ids_append_fresh _ _ h (newProductId_fresh _)
  | remove i ok =>
    obtain ⟨sc, sp⟩ := st
    cases sp with
    | absent => exact h
    | corrupt => exact h
    | val l =>
      by_cases hlen : l.length = (l.filter (fun p => !(p.id == i))).length
      · simpa [applyStoreOp, offlineApi.deleteProduct, if_pos hlen, liveProducts,
          getStoredData] using h
      · cases ok with
        | false =>
          simpa [applyStoreOp, offlineApi.deleteProduct, if_neg hlen, setStoredData,
            liveProducts, getStoredData] using h
        | true =>
          have hsub : List.Sublist ((l.filter (fun p => !(p.id == i))).map (fun p => p.id))
              (l.map (fun p => p.id)) :=
            (List.filter_sublist l).map _
          have h2 : ((l.filter (fun p => !(p.id == i))).map (fun p => p.id)).Nodup :=
            hsub.nodup h
          simpa [applyStoreOp, offlineApi.deleteProduct, if_neg hlen, setStoredData,
            liveProducts, getStoredData] using h2

/-- C6: from any store state whose live ids are duplicate-free, no sequence of
create and delete operations ever produces two live products sharing an id,
and the id a create would assign next never equals a live id. -/
theorem c6_id_uniqueness (t0 : Nat) (st : LocalStorage) (ops : List StoreOp)
    (h : ((liveProducts st t0).map (fun p => p.id)).Nodup) :
    ((liveProducts (applyStoreOps t0 st ops) t0).map (fun p => p.id)).Nodup
    ∧ newProductId (liveProducts (applyStoreOps t0 st ops) t0)
        ∉ (liveProducts (applyStoreOps t0 st ops) t0).map (fun p => p.id) := by
  constructor
  · induction ops generalizing st with
    | nil => exact h
    | cons op rest ih => exact ih _ (nodup_ids_applyStoreOp t0 st op h)
  · exact newProductId_fresh _

/-- C6 witness: the invariant evaluated after one create and one delete on the
concrete two-product store. -/
theorem c6_witness :
    (((liveProducts stW 0).map (fun p => p.id)).Nodup)
    ∧ (((liveProducts (applyStoreOps 0 stW opsW) 0).map (fun p => p.id)).Nodup
       ∧ newProductId (liveProducts (applyStoreOps 0 stW opsW) 0)
           ∉ (liveProducts (applyStoreOps 0 stW opsW) 0).map (fun p => p.id)) :=
  ⟨by decide, c6_id_uniqueness 0 stW opsW (by decide)⟩

/-!
C7. Seeding idempotence of the offline store initialization.
-/

/-- C7: initializing twice on the empty medium equals initializing once and
leaves exactly the sample category and product seeds; on any medium whose two
collections are already non-empty, initialization changes nothing. -/
theorem c7_seeding_idempotent (t0 : Nat) (st : LocalStorage)
    (hc : getStoredData st.categories ([] : List Category) ≠ [])
    (hp : getStoredData st.products ([] : List Product) ≠ []) :
    initializeData st t0 true true = st
    ∧ initializeData (initializeData emptyStorage t0 true true) t0 true true
        = initializeData emptyStorage t0 true true
    ∧ (initializeData emptyStorage t0 true true).categories = .val (SAMPLE_CATEGORIES t0)
    ∧ (initializeData emptyStorage t0 true true).products = .val (SAMPLE_PRODUCTS t0) := by
  have hlc : ¬(getStoredData st.categories ([] : List Category)).length = 0 := by
    simpa [List.length_eq_zero] using hc
  have hlp : ¬(getStoredData st.products ([] : List Product)).length = 0 := by
    simpa [List.length_eq_zero] using hp
  refine ⟨?_, rfl, rfl, rfl⟩
  simp only [initializeData, if_neg hlc, if_neg hlp]

/-- C7 witness: the idempotence statement evaluated on the seeded two-product
store. -/
theorem c7_witness :
    (getStoredData stW.categories ([] : List Category) ≠ []
     ∧ getStoredData stW.products ([] : List Product) ≠ [])
    ∧ (initializeData stW 0 true true = stW
       ∧ initializeData (initializeData emptyStorage 0 true true) 0 true true
           = initializeData emptyStorage 0 true true
       ∧ (initializeData emptyStorage 0 true true).categories = .val (SAMPLE_CATEGORIES 0)
       ∧ (initializeData emptyStorage 0 true true).products = .val (SAMPLE_PRODUCTS 0)) :=
  ⟨⟨by decide, by decide⟩, c7_seeding_idempotent 0 stW (by decide) (by decide)⟩

/-!
C10. Mutations whose localStorage write fails still report success.
-/

/-- When some stored product carries the payload id, the findIndex-and-set of
the offline updateProduct yields a match. -/
theorem existsMatch_updateFirstMatch (l : List Product) (u : UpdateData) (now : Nat)
    (h : ∃ p ∈ l, p.id = u.id) : ∃ l2, updateFirstMatch l u now = some l2 := by
  induction l with
  | nil => simp at h
  | cons q rest ih =>
    by_cases hq : (q.id == u.id) = true
    · exact ⟨applyUpdate q u now :: rest, by simp [updateFirstMatch, hq]⟩
    · have hq2 : q.id ≠ u.id := by simpa using hq
      rcases h with ⟨p, hp, hpid⟩
      rcases List.mem_cons.mp hp with rfl | hmem
      · exact absurd hpid hq2
      · rcases ih ⟨p, hmem, hpid⟩ with ⟨l2, hl2⟩
        exact ⟨q :: l2, by simp [updateFirstMatch, hq, hl2]⟩

/-- C10: with a failing localStorage write, createProduct still reports
success with the would-be new id, updateProduct of an existing id and
deleteProduct of an existing id still report success, and in all three cases
the stored state is unchanged, so later reads observe no mutation. -/
theorem c10_swallowed_write (st : LocalStorage) (t0 now : Nat) (cd : CreateData)
    (u : UpdateData) (did : Int)
    (hu : ∃ p ∈ getStoredData st.products ([] : List Product), p.id = u.id)
    (hd : ∃ p ∈ getStoredData st.products ([] : List Product), p.id = did) :
    offlineApi.createProduct st t0 cd now false
      = ({ success := true,
           id := some (newProductId (getStoredData st.products (SAMPLE_PRODUCTS t0))),
           error := none }, st)
    ∧ offlineApi.updateProduct st u now false = ({ success := true, error := none }, st)
    ∧ offlineApi.deleteProduct st did false = ({ success := true, error := none }, st) := by
  obtain ⟨l2, hl2⟩ := existsMatch_updateFirstMatch (getStoredData st.products []) u now hu
  have hdel : ((getStoredData st.products ([] : List Product)).filter
      (fun p => !(p.id == did))).length
      < (getStoredData st.products ([] : List Product)).length := by
    rw [List.length_filter_lt_length_iff_exists]
    rcases hd with ⟨p, hp, hpid⟩
    exact ⟨p, hp, by simp [hpid]⟩
  have hne : ¬(getStoredData st.products ([] : List Product)).length
      = ((getStoredData st.products ([] : List Product)).filter
          (fun p => !(p.id == did))).length := by
    omega
  refine ⟨rfl, ?_, ?_⟩
  · simp [offlineApi.updateProduct, hl2, setStoredData]
  · simp [offlineApi.deleteProduct, if_neg hne, setStoredData]

/-- C10 witness: the swallowed-write statement evaluated on the two-product
store, updating id 1 and deleting id 2. -/
theorem c10_witness :
    ((∃ p ∈ getStoredData stW.products ([] : List Product), p.id = udW.id)
     ∧ (∃ p ∈ getStoredData stW.products ([] : List Product), p.id = (2 : Int)))
    ∧ (offlineApi.createProduct stW 0 cdW 7 false
         = ({ success := true,
              id := some (newProductId (getStoredData stW.products (SAMPLE_PRODUCTS 0))),
              error := none }, stW)
       ∧ offlineApi.updateProduct stW udW 7 false = ({ success := true, error := none }, stW)
       ∧ offlineApi.deleteProduct stW 2 false = ({ success := true, error := none }, stW)) :=
  ⟨⟨by decide, by decide⟩, c10_swallowed_write stW 0 7 cdW udW 2 (by decide) (by decide)⟩
